import Mathlib

/-!
Shallow embedding of the viewport windowing, decoding and annotation engine
of the `anton` memory viewer (Rust sources: `src/lib.rs`,
`src/instruction_view.rs`, `src/main.rs`).

Conventions of the embedding:
* Rust `u32` (the `Address` type) and `u16` (ratatui `Rect` fields) values are
  Lean `Nat`s; wherever the Rust code can wrap, the wrap is written out as an
  explicit `% 2^16` (release-mode wrapping semantics of an overflowing `u16`
  multiplication).
* Rust `saturating_sub` on unsigned integers coincides with truncated `Nat`
  subtraction, so it is written as plain `-` on `Nat`.
* A computation that panics in Rust (integer remainder by zero, `Option::unwrap`
  on `None`, an out-of-bounds slice) is modelled as `none` of an `Option`
  result type.
-/

namespace Anton

/-- Largest value of the 32-bit `Address` type (`u32::MAX`). -/
def U32_MAX : Nat := 4294967295

/-- Modulus of the 16-bit `u16` type used by layout dimensions. -/
def U16_MOD : Nat := 65536

/-- `MemoryViewState::pointer_index` (`lib.rs` lines 43-45):
`self.pointer.abs_diff(self.beginning_bucket) as usize`. -/
def pointer_index (pointer beginning_bucket : Nat) : Nat :=
  if beginning_bucket ≤ pointer then pointer - beginning_bucket
  else beginning_bucket - pointer

/-- The state update of the byte view's `render` (`lib.rs` lines 322-325),
parameterised by the two layout outputs it reads: the memory-table width
(`layout.memory_table.width`) and the address-column height
(`layout.address_column.height`).

* `bytes_per_bucket = layout.memory_table.width / 3`;
* `pointed_bucket = pointer - pointer % bytes_per_bucket` — this is an
  unguarded `u32` remainder, so a zero `bytes_per_bucket` panics in Rust,
  modelled here as `none`;
* `beginning_bucket = pointed_bucket.saturating_sub((bytes_per_bucket *
  height / 2) as Address)` — the product `bytes_per_bucket * height` is a
  `u16` multiplication (wrapping modulo `2^16`), divided by 2 before the cast.

Returns `some (beginning_bucket, bytes_per_bucket)`. -/
def memRenderUpdate (pointer width height : Nat) : Option (Nat × Nat) :=
  let bytes_per_bucket := width / 3
  if bytes_per_bucket = 0 then none
  else
    let pointed_bucket := pointer - pointer % bytes_per_bucket
    let offset := (bytes_per_bucket * height % U16_MOD) / 2
    some (pointed_bucket - offset, bytes_per_bucket)

/-- The state update of the instruction view's `render`
(`instruction_view.rs` lines 165-167):
`pointer.saturating_sub((layout.address_column.height / 2) as Address * 4)`.
The stride is the literal constant `4`, independent of the instruction
type `I`. -/
def insnBeginningAddress (pointer height : Nat) : Nat :=
  pointer - height / 2 * 4

/-- One address-column label of the byte view (`lib.rs` lines 130-135):
`beginning_bucket.checked_add((bytes_per_bucket * index) as Address)`.
The product `bytes_per_bucket * index` is a `u16` multiplication, wrapping
modulo `2^16` before the cast to `Address`; the outer `checked_add` yields
`none` when the 32-bit sum would overflow. -/
def addressLabelValue (beginning_bucket bytes_per_bucket index : Nat) : Option Nat :=
  let offset := bytes_per_bucket * index % U16_MOD
  if beginning_bucket + offset ≤ U32_MAX then some (beginning_bucket + offset)
  else none

/-- Uppercase hexadecimal digit, as produced by Rust's `{:X}` formatting. -/
def hexDigit (n : Nat) : Char :=
  if n < 10 then Char.ofNat (48 + n) else Char.ofNat (55 + n)

/-- Rust `format!("{x:08X}")` for a `u32` value: eight uppercase hex digits. -/
def hex8 (x : Nat) : String :=
  String.mk ((List.range 8).reverse.map fun i => hexDigit (x / 16 ^ i % 16))

/-- The rendered text of one address-column label (`lib.rs` lines 136-139):
the checked address formatted `{:08X}`, or the dash placeholder on
overflow. -/
def addressLabelText (beginning_bucket bytes_per_bucket index : Nat) : String :=
  match addressLabelValue beginning_bucket bytes_per_bucket index with
  | some x => hex8 x
  | none => "--------"

/-- The glyph of one memory-table cell (`lib.rs` lines 166-169):
`byte.map(|x| format!("{x:02X}")).unwrap_or("◦◦")`. -/
def memCellGlyph (byte : Option Nat) : String :=
  match byte with
  | some x => String.mk [hexDigit (x / 16 % 16), hexDigit (x % 16)]
  | none => "◦◦"

/-- The value fed to the colour gradient for one memory-table cell
(`lib.rs` line 171): `colorous::COOL.eval_rational(byte.unwrap_or(0), 256)`
evaluates the gradient at `byte.unwrap_or(0)`; the gradient itself is an
external pure function of this argument. -/
def memCellGradientInput (byte : Option Nat) : Nat :=
  byte.getD 0

/-- The underline alternation of one memory-table cell (`lib.rs` line 175):
set iff `((beginning_bucket + i) / 4) % 2 == 0`. -/
def memCellUnderlined (beginning_bucket i : Nat) : Bool :=
  (beginning_bucket + i) / 4 % 2 == 0

/-- Reinterpretation of a `u8` value as `i8` (Rust `as_u8 as i8`,
`lib.rs` line 241). -/
def toI8 (x : Nat) : Int :=
  if x < 128 then (x : Int) else (x : Int) - 256

/-- Reinterpretation of a `u16` value as `i16` (Rust `x as i16`,
`lib.rs` line 247). -/
def toI16 (x : Nat) : Int :=
  if x < 32768 then (x : Int) else (x : Int) - 65536

/-- Reinterpretation of a `u32` value as `i32` (Rust `x as i32`,
`lib.rs` line 253). -/
def toI32 (x : Nat) : Int :=
  if x < 2147483648 then (x : Int) else (x : Int) - 4294967296

/-- `lib.rs` lines 243-246: `match bytes[..2] { [Some(a), Some(b)] =>
Some(u16::from_le_bytes([a, b])), _ => None }`. The argument is the four-byte
window `bytes`; only its first two elements are inspected. -/
def decode_u16 (bytes : List (Option Nat)) : Option Nat :=
  match bytes.take 2 with
  | [some a, some b] => some (a + 256 * b)
  | _ => none

/-- `lib.rs` line 247: `as_u16.map(|x| x as i16)`. -/
def decode_i16 (bytes : List (Option Nat)) : Option Int :=
  (decode_u16 bytes).map toI16

/-- `lib.rs` lines 249-252: `match bytes[..] { [Some(a), Some(b), Some(c),
Some(d)] => Some(u32::from_le_bytes([a, b, c, d])), _ => None }`. -/
def decode_u32 (bytes : List (Option Nat)) : Option Nat :=
  match bytes with
  | [some a, some b, some c, some d] => some (a + 256 * (b + 256 * (c + 256 * d)))
  | _ => none

/-- `lib.rs` line 253: `as_u32.map(|x| x as i32)`. -/
def decode_i32 (bytes : List (Option Nat)) : Option Int :=
  (decode_u32 bytes).map toI32

/-- Value of an IEEE-754 binary32 datum, as produced by `f32::from_le_bytes`:
a finite value is an exact rational, the exponent-255 patterns are infinities
and NaN (NaN payloads are not distinguished, the viewer only formats the
value). -/
inductive F32Val where
  | finite (q : ℚ)
  | infinite (neg : Bool)
  | nan
deriving DecidableEq

/-- Decoding of an IEEE-754 binary32 bit pattern into its value:
sign bit 31, biased exponent bits 23-30, mantissa bits 0-22; a normal value
is `±(2^23 + m) · 2^e / 2^150`, a subnormal is `±m / 2^149`. -/
def f32_from_bits (bits : Nat) : F32Val :=
  let s : Nat := bits / 2 ^ 31 % 2
  let e : Nat := bits / 2 ^ 23 % 2 ^ 8
  let m : Nat := bits % 2 ^ 23
  if e = 255 then
    if m = 0 then F32Val.infinite (s = 1) else F32Val.nan
  else
    let mag : ℚ := if e = 0 then (m : ℚ) / 2 ^ 149 else ((2 ^ 23 + m : Nat) : ℚ) * 2 ^ e / 2 ^ 150
    F32Val.finite (if s = 1 then -mag else mag)

/-- `lib.rs` lines 255-258: `match bytes[..] { [Some(a), Some(b), Some(c),
Some(d)] => Some(f32::from_le_bytes([a, b, c, d])), _ => None }`. -/
def decode_f32 (bytes : List (Option Nat)) : Option F32Val :=
  match bytes with
  | [some a, some b, some c, some d] =>
    some (f32_from_bits (a + 256 * (b + 256 * (c + 256 * d))))
  | _ => none

/-- The seven decoded interpretations shown by the info bar. -/
structure InfoBarValues where
  as_u8 : Nat
  as_i8 : Int
  as_u16 : Option Nat
  as_i16 : Option Int
  as_u32 : Option Nat
  as_i32 : Option Int
  as_f32 : Option F32Val
deriving DecidableEq

/-- The decoding part of `MemoryView::render_info_bar` (`lib.rs` lines
238-258), given the filled buffer and the pointer's index into it.

* Line 238 takes the slice `&buffer[idx .. idx + 4]`, which panics when the
  buffer is too short — modelled as `none`;
* line 240 computes `as_u8 = buffer[idx].unwrap()`, which panics when the
  pointer's own byte is `None` — also modelled as `none`;
* otherwise all seven interpretations are produced. -/
def render_info_bar (buffer : List (Option Nat)) (idx : Nat) : Option InfoBarValues :=
  if idx + 4 ≤ buffer.length then
    let bytes := (buffer.drop idx).take 4
    match buffer.getD idx none with
    | none => none
    | some u8v =>
      some { as_u8 := u8v, as_i8 := toI8 u8v,
             as_u16 := decode_u16 bytes, as_i16 := decode_i16 bytes,
             as_u32 := decode_u32 bytes, as_i32 := decode_i32 bytes,
             as_f32 := decode_f32 bytes }
  else none

/-- `main.rs` line 90 (`l` key): `pointer.saturating_add(1)` on `u32`. -/
def step_forward_byte (pointer : Nat) : Nat :=
  min (pointer + 1) U32_MAX

/-- `main.rs` line 91 (`h` key): `pointer.saturating_sub(1)` on `u32`. -/
def step_backward_byte (pointer : Nat) : Nat :=
  pointer - 1

/-- `main.rs` lines 78-83 (`j` key):
`pointer.checked_add(bytes_per_bucket).unwrap_or(pointer)`. -/
def step_forward_row (pointer bytes_per_bucket : Nat) : Nat :=
  if pointer + bytes_per_bucket ≤ U32_MAX then pointer + bytes_per_bucket
  else pointer

/-- `main.rs` lines 84-89 (`k` key):
`pointer.checked_sub(bytes_per_bucket).unwrap_or(pointer)`. -/
def step_backward_row (pointer bytes_per_bucket : Nat) : Nat :=
  if bytes_per_bucket ≤ pointer then pointer - bytes_per_bucket
  else pointer

/-! Helper lemmas about the decoders. -/

theorem decode_u16_of_none {bytes : List (Option Nat)} (h : none ∈ bytes.take 2) :
    decode_u16 bytes = none := by
  unfold decode_u16
  split
  · rename_i a b heq
    rw [heq] at h
    simp at h
  · rfl

theorem decode_u32_of_none {bytes : List (Option Nat)} (h : none ∈ bytes) :
    decode_u32 bytes = none := by
  unfold decode_u32
  split
  · simp at h
  · rfl

theorem decode_f32_of_none {bytes : List (Option Nat)} (h : none ∈ bytes) :
    decode_f32 bytes = none := by
  unfold decode_f32
  split
  · simp at h
  · rfl

/-! Claim theorems. -/

/-- C1 counterexample: at pointer 100, memory-table width 24 (bucket size 8)
and address-column height 5, the render computes `beginning_bucket = 76`
(namely `96 - (8 * 5) / 2`), not the claimed `80 = 96 - 8 * (5 / 2)`: the
centering offset is `(bucket_size * visible_rows) / 2`, not
`bucket_size * (visible_rows / 2)`. -/
theorem mem_beginning_bucket_claim_cex :
    memRenderUpdate 100 24 5 = some (76, 8) ∧ (76 : Nat) ≠ 80 := by
  decide

/-- C1 (amended): for every pointer, width with `bucket_size = width / 3 ≥ 1`
and height with `bucket_size * height < 2^16`, the byte-view windowing sets
`beginning_bucket = pointed_bucket.saturating_sub((bucket_size * height) / 2)`
where `pointed_bucket = pointer - pointer % bucket_size`; in particular for
pointer 100, bucket size 8, height 5 it yields 76. -/
theorem mem_beginning_bucket_formula (pointer width height : Nat)
    (hw : 3 ≤ width) (hsmall : width / 3 * height < 65536) :
    memRenderUpdate pointer width height =
      some (pointer - pointer % (width / 3) - width / 3 * height / 2, width / 3) := by
  have hb : ¬ (width / 3 = 0) := by omega
  simp [memRenderUpdate, hb, U16_MOD, Nat.mod_eq_of_lt hsmall]

/-- Witness for C1 (amended) at pointer 100, width 24, height 5. -/
theorem mem_beginning_bucket_formula_witness :
    memRenderUpdate 100 24 5 =
      some (100 - 100 % (24 / 3) - 24 / 3 * 5 / 2, 24 / 3) :=
  mem_beginning_bucket_formula 100 24 5 (by decide) (by decide)

/-- C2 (code bug): with the buffer `[None, Some 5, None, None]` and the
pointer at offset 0, `render_info_bar` reaches
`state.memory_buffer[state.pointer_index()].unwrap()` (`lib.rs` line 240) on a
`None` byte and panics — modelled as `none` — instead of rendering an
"unavailable" marker for u8/i8 and an uninterrupted placeholder row. -/
theorem info_bar_unwrap_panic :
    render_info_bar [none, some 5, none, none] 0 = none := by
  decide

/-- C3 (code bug): with a display area whose memory-table row width is 2
(so `bucket_size = 2 / 3 = 0`), the render evaluates
`pointer % bucket_size` (`lib.rs` line 323) with a zero divisor and panics —
modelled as `none` — there is no explicit guard and no placeholder
degradation. -/
theorem render_zero_bucket_panic :
    memRenderUpdate 100 2 5 = none := by
  decide

/-- C4: the decoder is little-endian: `[0x78, 0x56, 0x34, 0x12]` decodes to
u32 `0x12345678`, `[0x00, 0x00, 0x80, 0x3F]` decodes to f32 `1.0`, and a
window with a missing byte among the first two decodes to `None` for u16/i16
and one with a missing byte anywhere decodes to `None` for u32/i32/f32. -/
theorem decode_little_endian :
    decode_u32 [some 0x78, some 0x56, some 0x34, some 0x12] = some 0x12345678 ∧
    decode_f32 [some 0x00, some 0x00, some 0x80, some 0x3F] = some (F32Val.finite 1) ∧
    (∀ bytes : List (Option Nat), none ∈ bytes.take 2 →
      decode_u16 bytes = none ∧ decode_i16 bytes = none) ∧
    (∀ bytes : List (Option Nat), none ∈ bytes →
      decode_u32 bytes = none ∧ decode_i32 bytes = none ∧ decode_f32 bytes = none) := by
  refine ⟨by decide, ?_, fun bytes h => ⟨decode_u16_of_none h, ?_⟩,
    fun bytes h => ⟨decode_u32_of_none h, ?_, decode_f32_of_none h⟩⟩
  · unfold decode_f32 f32_from_bits
    norm_num
  · simp [decode_i16, decode_u16_of_none h]
  · simp [decode_i32, decode_u32_of_none h]

/-- Witness for C4 on the spec's missing-byte buffers. -/
theorem decode_little_endian_witness :
    decode_u16 [none, some 5, none, none] = none ∧
    decode_u32 [some 1, none, some 2, some 3] = none :=
  ⟨(decode_little_endian.2.2.1 [none, some 5, none, none] (by decide)).1,
   (decode_little_endian.2.2.2 [some 1, none, some 2, some 3] (by decide)).1⟩

/-- C5 counterexample: at pointer 8, width 24 (bucket size 8) and height 1,
no saturation occurs (the offset `8 * 1 / 2 = 4` is at most the pointed
bucket 8), yet the pointed bucket 8 exceeds
`beginning_bucket + bucket_size * (height - 1) = 4`. -/
theorem mem_window_bounds_claim_cex :
    memRenderUpdate 8 24 1 = some (4, 8) ∧
    24 / 3 * 1 % U16_MOD / 2 ≤ 8 - 8 % (24 / 3) ∧
    ¬ (8 - 8 % (24 / 3) ≤ 4 + 24 / 3 * (1 - 1)) := by
  decide

/-- C5 (amended): for every pointer, width with `bucket_size = width / 3 ≥ 1`
and height `≥ 2`: `beginning_bucket ≤ pointed_bucket` always; when no
saturation occurs, `pointed_bucket ≤ beginning_bucket + bucket_size *
(height - 1)`; and in the saturation case `beginning_bucket = 0`. -/
theorem mem_window_bounds (pointer width height : Nat)
    (hw : 3 ≤ width) (hh : 2 ≤ height) :
    ∃ beg, memRenderUpdate pointer width height = some (beg, width / 3) ∧
      beg ≤ pointer - pointer % (width / 3) ∧
      (width / 3 * height % U16_MOD / 2 ≤ pointer - pointer % (width / 3) →
        pointer - pointer % (width / 3) ≤ beg + width / 3 * (height - 1)) ∧
      (pointer - pointer % (width / 3) < width / 3 * height % U16_MOD / 2 →
        beg = 0) := by
  have hb : ¬ (width / 3 = 0) := by omega
  refine ⟨pointer - pointer % (width / 3) - width / 3 * height % U16_MOD / 2,
    by simp [memRenderUpdate, hb], Nat.sub_le _ _, fun hns => ?_, fun hs => by omega⟩
  have key1 : width / 3 * height % U16_MOD / 2 ≤ width / 3 * height / 2 :=
    Nat.div_le_div_right (Nat.mod_le _ _)
  have key2 : width / 3 * height ≤ 2 * (width / 3 * (height - 1)) := by
    have h1 : width / 3 * height = width / 3 * (height - 1) + width / 3 := by
      rw [← Nat.mul_succ]
      congr 1
      omega
    have h2 : width / 3 ≤ width / 3 * (height - 1) :=
      Nat.le_mul_of_pos_right _ (by omega)
    omega
  have key3 : width / 3 * height / 2 ≤ width / 3 * (height - 1) := by
    calc width / 3 * height / 2 ≤ 2 * (width / 3 * (height - 1)) / 2 :=
          Nat.div_le_div_right key2
      _ = width / 3 * (height - 1) := Nat.mul_div_cancel_left _ (by norm_num)
  omega

/-- Witness for C5 (amended) at pointer 100, width 24, height 5. -/
theorem mem_window_bounds_witness :
    ∃ beg, memRenderUpdate 100 24 5 = some (beg, 24 / 3) ∧
      beg ≤ 100 - 100 % (24 / 3) ∧
      (24 / 3 * 5 % U16_MOD / 2 ≤ 100 - 100 % (24 / 3) →
        100 - 100 % (24 / 3) ≤ beg + 24 / 3 * (5 - 1)) ∧
      (100 - 100 % (24 / 3) < 24 / 3 * 5 % U16_MOD / 2 → beg = 0) :=
  mem_window_bounds 100 24 5 (by decide) (by decide)

/-- C6 counterexample: for an instruction type of size 2, pointer 100 and
height 5, the claimed formula `pointer.saturating_sub(size_of::<I>() *
(height / 2))` gives 96, but the instruction-view windowing computes 92: the
stride is the hardcoded constant 4, not the instruction size. -/
theorem insn_beginning_claim_cex :
    insnBeginningAddress 100 5 = 92 ∧ (92 : Nat) ≠ 100 - 2 * (5 / 2) := by
  decide

/-- C6 (amended): for every pointer and visible row count, the
instruction-view windowing computes `beginning_address =
pointer.saturating_sub(4 * (height / 2))`, the stride being the fixed size 4
of the 32-bit `Address` type — irrespective of `size_of::<I>()` — with one
unit per row. -/
theorem insn_beginning_formula (pointer height : Nat) :
    insnBeginningAddress pointer height = pointer - 4 * (height / 2) := by
  unfold insnBeginningAddress
  rw [Nat.mul_comm]

/-- C7 counterexample: a cell with a missing byte is coloured through the
gradient at `byte.unwrap_or(0)`, the very same gradient input as a byte equal
to zero — so `None` cells do receive the data-driven gradient colour of the
value 0, contradicting "no data-driven color". -/
theorem mem_cell_none_color_cex :
    memCellGradientInput none = memCellGradientInput (some 0) := by
  decide

/-- C7 (amended): a `None` cell renders the fixed placeholder glyph `◦◦` and
is coloured by the gradient evaluated at 0 (via `byte.unwrap_or(0)`), while a
`Some v` cell is coloured by the gradient evaluated at `v` and renders the
two-digit uppercase hex of `v`. -/
theorem mem_cell_annotation :
    memCellGlyph none = "◦◦" ∧ memCellGradientInput none = 0 ∧
    (∀ v : Nat, memCellGradientInput (some v) = v) ∧
    (∀ v : Nat, v < 256 →
      memCellGlyph (some v) = String.mk [hexDigit (v / 16), hexDigit (v % 16)]) := by
  refine ⟨rfl, rfl, fun v => rfl, fun v hv => ?_⟩
  have h16 : v / 16 % 16 = v / 16 := by omega
  simp [memCellGlyph, h16]

/-- Witness for C7 (amended) at the byte value 171 (`0xAB`). -/
theorem mem_cell_annotation_witness :
    memCellGlyph (some 171) = String.mk [hexDigit (171 / 16), hexDigit (171 % 16)] :=
  mem_cell_annotation.2.2.2 171 (by decide)

/-- C8 (code bug): the per-row offset `bytes_per_bucket * index` of the
address column is computed in 16-bit arithmetic before the cast to `Address`;
at beginning bucket 0, bucket size 21845 and row index 4 it wraps to 21844,
so the label shows `00005554` instead of the true address 87380
(`00015554`) and no dash placeholder appears. -/
theorem address_label_u16_wrap :
    addressLabelValue 0 21845 4 = some 21844 ∧
    21845 * 4 = 87380 ∧
    addressLabelText 0 21845 4 = "00005554" := by
  decide

/-- C9: all pointer-stepping operations are clamped to the 32-bit address
range: stepping back a byte from 0 stays at 0, stepping forward a byte from
`u32::MAX` stays there, the row steps leave the pointer unchanged whenever
the step would exceed the bounds, and no step ever leaves the address
range. -/
theorem pointer_steps_clamped :
    step_backward_byte 0 = 0 ∧
    step_forward_byte U32_MAX = U32_MAX ∧
    (∀ p b : Nat, U32_MAX < p + b → step_forward_row p b = p) ∧
    (∀ p b : Nat, p < b → step_backward_row p b = p) ∧
    (∀ p b : Nat, p ≤ U32_MAX →
      step_forward_byte p ≤ U32_MAX ∧ step_backward_byte p ≤ U32_MAX ∧
      step_forward_row p b ≤ U32_MAX ∧ step_backward_row p b ≤ U32_MAX) := by
  refine ⟨rfl, by simp [step_forward_byte], fun p b h => ?_, fun p b h => ?_,
    fun p b hp => ⟨?_, ?_, ?_, ?_⟩⟩
  · simp only [step_forward_row]
    split <;> omega
  · simp only [step_backward_row]
    split <;> omega
  · simp only [step_forward_byte]
    omega
  · simp only [step_backward_byte]
    omega
  · simp only [step_forward_row]
    split <;> omega
  · simp only [step_backward_row]
    split <;> omega

/-- Witness for C9: a forward row step past `u32::MAX` and a backward row
step below 0 both leave the pointer unchanged. -/
theorem pointer_steps_clamped_witness :
    step_forward_row 4294967295 1 = 4294967295 ∧ step_backward_row 0 8 = 0 :=
  ⟨pointer_steps_clamped.2.2.1 4294967295 1 (by decide),
   pointer_steps_clamped.2.2.2.1 0 8 (by decide)⟩

/-- C10: after every byte-view render with nonzero bucket size (width at
least 3), the computed `beginning_bucket` is at most the pointer, so
`pointer_index` — defined via `abs_diff` — equals the plain difference
`pointer - beginning_bucket`. -/
theorem pointer_index_after_render (pointer width height : Nat) (hw : 3 ≤ width) :
    ∃ beg b, memRenderUpdate pointer width height = some (beg, b) ∧
      beg ≤ pointer ∧ pointer_index pointer beg = pointer - beg := by
  have hb : ¬ (width / 3 = 0) := by omega
  refine ⟨pointer - pointer % (width / 3) - width / 3 * height % U16_MOD / 2,
    width / 3, by simp [memRenderUpdate, hb], ?_, ?_⟩
  · exact le_trans (Nat.sub_le _ _) (Nat.sub_le _ _)
  · have hle : pointer - pointer % (width / 3) - width / 3 * height % U16_MOD / 2
        ≤ pointer := le_trans (Nat.sub_le _ _) (Nat.sub_le _ _)
    simp [pointer_index, hle]

/-- Witness for C10 at pointer 100, width 24, height 5. -/
theorem pointer_index_after_render_witness :
    ∃ beg b, memRenderUpdate 100 24 5 = some (beg, b) ∧
      beg ≤ 100 ∧ pointer_index 100 beg = 100 - beg :=
  pointer_index_after_render 100 24 5 (by decide)

end Anton
